import Mathlib

/-!
Verification of the Toy Robot Challenge core.

The repository contains two implementations of the robot entity:
* the backend model (`src/backend/app/models/robot.py`, class `Robot`), used by
  `RobotService` (`src/backend/app/services/robot_service.py`) and the FastAPI
  routes (`src/backend/app/api/routes.py`);
* the standalone CLI model (`src/robot.py`, classes `Robot` and `Table`).

Both store `x`, `y` (Python ints or `None`) and `facing` (a string or `None`).
We embed the state as one structure and each implementation's operations as
separate functions.  Where the Python code can raise an exception
(`list.index` raising `ValueError`, arithmetic on `None` raising `TypeError`),
the embedded operation returns `Option` with `none` for "raises".
-/

/-- State of a robot: `x`, `y`, `facing`, each `None` until placed
(both `src/robot.py` and `src/backend/app/models/robot.py`, `__init__`). -/
structure Robot where
  x : Option Int
  y : Option Int
  facing : Option String
  deriving Repr, DecidableEq

/-- A freshly constructed robot: all three fields unset. -/
def Robot.init : Robot := { x := none, y := none, facing := none }

/-- Membership test `facing in ('NORTH', 'SOUTH', 'EAST', 'WEST')`
used by `place` in both implementations. -/
def validFacing (f : String) : Bool :=
  f == "NORTH" || f == "SOUTH" || f == "EAST" || f == "WEST"

/-- `Robot.place` (identical code in `src/backend/app/models/robot.py` lines
36-41 and `src/robot.py` lines 7-14): if `0 <= x <= 4 and 0 <= y <= 4` and the
facing string is valid, set all three fields and return `True`; otherwise
leave the state alone and return `False`. -/
def Robot.place (r : Robot) (x y : Int) (facing : String) : Robot × Bool :=
  if 0 ≤ x ∧ x ≤ 4 ∧ 0 ≤ y ∧ y ≤ 4 ∧ validFacing facing = true then
    ({ x := some x, y := some y, facing := some facing }, true)
  else
    (r, false)

/-- `Robot.is_placed` (backend): all three fields are set. -/
def Robot.is_placed (r : Robot) : Bool :=
  r.x.isSome && r.y.isSome && r.facing.isSome

/-- `Robot.move` (backend, lines 52-68): early return when not placed, then
one branch per facing value, clamping with `min`/`max`; an unrecognized
facing string falls through every `elif` and changes nothing. -/
def Robot.move (r : Robot) : Robot :=
  if r.is_placed = false then r
  else if r.facing = some "NORTH" then { r with y := r.y.map (fun v => min (v + 1) 4) }
  else if r.facing = some "SOUTH" then { r with y := r.y.map (fun v => max (v - 1) 0) }
  else if r.facing = some "EAST" then { r with x := r.x.map (fun v => min (v + 1) 4) }
  else if r.facing = some "WEST" then { r with x := r.x.map (fun v => max (v - 1) 0) }
  else r

/-- `directions.index(f)` for `directions = ['NORTH', 'EAST', 'SOUTH', 'WEST']`;
`none` models the `ValueError` raised when `f` is not in the list. -/
def dirIndex (f : String) : Option Nat :=
  if f == "NORTH" then some 0
  else if f == "EAST" then some 1
  else if f == "SOUTH" then some 2
  else if f == "WEST" then some 3
  else none

/-- `directions[n]` for `directions = ['NORTH', 'EAST', 'SOUTH', 'WEST']`;
only ever applied at `n % 4 < 4`, so a total function is exact. -/
def dirAt (n : Nat) : String :=
  match n with
  | 0 => "NORTH"
  | 1 => "EAST"
  | 2 => "SOUTH"
  | _ => "WEST"

/-- `Robot.left` (backend, lines 70-77): no-op when not placed, otherwise
`facing = directions[(directions.index(facing) - 1) % 4]` (Python modulo of
`i - 1` is `(i + 3) % 4`).  `none` models the `ValueError` from
`directions.index` when the stored facing is not one of the four strings. -/
def Robot.left (r : Robot) : Option Robot :=
  if r.is_placed = false then some r
  else
    match r.facing with
    | none => none
    | some f =>
      match dirIndex f with
      | none => none
      | some i => some { r with facing := some (dirAt ((i + 3) % 4)) }

/-- `Robot.right` (backend, lines 79-84): as `left` with `(i + 1) % 4`. -/
def Robot.right (r : Robot) : Option Robot :=
  if r.is_placed = false then some r
  else
    match r.facing with
    | none => none
    | some f =>
      match dirIndex f with
      | none => none
      | some i => some { r with facing := some (dirAt ((i + 1) % 4)) }

/-- `Robot.report` (backend, lines 86-95): `f"{x},{y},{facing}"` when placed,
`None` otherwise. -/
def Robot.report (r : Robot) : Option String :=
  if r.is_placed = true then
    match r.x, r.y, r.facing with
    | some x, some y, some f => some (toString x ++ "," ++ toString y ++ "," ++ f)
    | _, _, _ => none
  else none

/-! ## CLI implementation (`src/robot.py`) -/

namespace CLI

/-- CLI `Robot.place` (lines 7-14), code identical to the backend `place`. -/
def place (r : Robot) (x y : Int) (facing : String) : Robot × Bool :=
  if 0 ≤ x ∧ x ≤ 4 ∧ 0 ≤ y ∧ y ≤ 4 ∧ validFacing facing = true then
    ({ x := some x, y := some y, facing := some facing }, true)
  else
    (r, false)

/-- CLI `Robot.move` (lines 16-24): no placed-guard; branches on the facing
string directly (`None` matches no branch, so an unplaced robot is a no-op);
`none` models the `TypeError` from `None + 1` when facing is set but the
moved coordinate is not. -/
def move (r : Robot) : Option Robot :=
  if r.facing = some "NORTH" then
    match r.y with
    | some v => some { r with y := some (min (v + 1) 4) }
    | none => none
  else if r.facing = some "SOUTH" then
    match r.y with
    | some v => some { r with y := some (max (v - 1) 0) }
    | none => none
  else if r.facing = some "EAST" then
    match r.x with
    | some v => some { r with x := some (min (v + 1) 4) }
    | none => none
  else if r.facing = some "WEST" then
    match r.x with
    | some v => some { r with x := some (max (v - 1) 0) }
    | none => none
  else some r

/-- CLI `Robot.left` (lines 26-28): no placed-guard, so
`directions.index(None)` raises `ValueError` on an unplaced robot (`none`). -/
def left (r : Robot) : Option Robot :=
  match r.facing with
  | none => none
  | some f =>
    match dirIndex f with
    | none => none
    | some i => some { r with facing := some (dirAt ((i + 3) % 4)) }

/-- CLI `Robot.right` (lines 30-32): as `left` with `(i + 1) % 4`. -/
def right (r : Robot) : Option Robot :=
  match r.facing with
  | none => none
  | some f =>
    match dirIndex f with
    | none => none
    | some i => some { r with facing := some (dirAt ((i + 1) % 4)) }

/-- Python string interpolation of an `Optional[str]` value. -/
def pyShowOptStr (o : Option String) : String :=
  match o with
  | some s => s
  | none => "None"

/-- CLI `Robot.report` (lines 34-38): checks only `x` and `y`, and formats
with `", "` separators: `f"{x}, {y}, {facing}"`; `"Not placed"` otherwise. -/
def report (r : Robot) : String :=
  match r.x, r.y with
  | some x, some y => toString x ++ ", " ++ toString y ++ ", " ++ pyShowOptStr r.facing
  | _, _ => "Not placed"

end CLI

/-! ## Service and route layers (`robot_service.py`, `routes.py`) -/

/-- `RobotService.reset` (lines 158-166): sets `x`, `y`, `facing` to `None`. -/
def serviceReset (r : Robot) : Robot :=
  { r with x := none, y := none, facing := none }

/-- Result of `RobotService.execute_command`: normal return with the robot's
new state and the optional report string, a `ValueError` with its message
(`unknown`), or another uncaught exception (`exn`). -/
inductive SvcResult where
  | ok (r : Robot) (ret : Option String)
  | unknown (r : Robot) (msg : String)
  | exn
  deriving Repr, DecidableEq

/-- Python `str.upper()` (on ASCII input), mapping each character to its
upper-case form. -/
def pyUpper (s : String) : String :=
  String.mk (s.data.map Char.toUpper)

/-- `RobotService.execute_command` (lines 78-105): uppercases the command,
dispatches to `move`/`left`/`right`/`report`, and raises
`ValueError(f"Unknown command: {command}")` — with the already-uppercased
`command` — for anything else, leaving the robot untouched. -/
def svcExecute (r : Robot) (command : String) : SvcResult :=
  let c := pyUpper command
  if c = "MOVE" then SvcResult.ok r.move none
  else if c = "LEFT" then
    match r.left with
    | some r2 => SvcResult.ok r2 none
    | none => SvcResult.exn
  else if c = "RIGHT" then
    match r.right with
    | some r2 => SvcResult.ok r2 none
    | none => SvcResult.exn
  else if c = "REPORT" then SvcResult.ok r r.report
  else SvcResult.unknown r ("Unknown command: " ++ c)

/-- The four command values admitted by the pydantic `CommandRequest`
(`Literal['MOVE', 'LEFT', 'RIGHT', 'REPORT']`, case-sensitive). -/
inductive ApiCommand where
  | MOVE
  | LEFT
  | RIGHT
  | REPORT
  deriving Repr, DecidableEq

/-- The wire string of an `ApiCommand`. -/
def ApiCommand.toStr (c : ApiCommand) : String :=
  match c with
  | ApiCommand.MOVE => "MOVE"
  | ApiCommand.LEFT => "LEFT"
  | ApiCommand.RIGHT => "RIGHT"
  | ApiCommand.REPORT => "REPORT"

/-- Result of the `/robot/command` route handler. -/
inductive RouteResult where
  | notPlacedError
  | ok (r : Robot) (ret : Option String)
  | invalidCommandError (msg : String)
  | exn
  deriving Repr, DecidableEq

/-- `execute_command` in `routes.py` (lines 70-120): raises
`RobotNotPlacedException` when the command is not `REPORT` and the robot is
unplaced, before any service call; otherwise delegates to
`RobotService.execute_command`, turning a `ValueError` into
`InvalidCommandException`. -/
def routeExecute (r : Robot) (c : ApiCommand) : RouteResult :=
  if c ≠ ApiCommand.REPORT ∧ r.is_placed = false then RouteResult.notPlacedError
  else
    match svcExecute r c.toStr with
    | SvcResult.ok r2 ret => RouteResult.ok r2 ret
    | SvcResult.unknown _ msg => RouteResult.invalidCommandError msg
    | SvcResult.exn => RouteResult.exn

/-! ## Command sequences for the reachable-state invariant -/

/-- One abstract operation on the backend robot, as dispatched by the service
and routes: placement, the four commands, and reset.  An exception raised by
`left`/`right` leaves the entity unchanged (the Python assignment to
`self.facing` never runs). -/
inductive Cmd where
  | place (x y : Int) (facing : String)
  | move
  | left
  | right
  | report
  | reset
  deriving Repr

/-- Apply one command to the backend robot state. -/
def stepCmd (r : Robot) (c : Cmd) : Robot :=
  match c with
  | Cmd.place x y f => (Robot.place r x y f).1
  | Cmd.move => Robot.move r
  | Cmd.left => (Robot.left r).getD r
  | Cmd.right => (Robot.right r).getD r
  | Cmd.report => r
  | Cmd.reset => serviceReset r

/-- The state reached from a fresh robot by a command sequence. -/
def runCmds (cs : List Cmd) : Robot :=
  cs.foldl stepCmd Robot.init

/-- An integer within the 5x5 grid bounds. -/
def inGrid (n : Int) : Bool := decide (0 ≤ n) && decide (n ≤ 4)

/-- The state invariant: all three fields set — with coordinates in bounds and
a valid facing — or all three unset. -/
def goodRobot (r : Robot) : Bool :=
  match r.x, r.y, r.facing with
  | some x, some y, some f => inGrid x && inGrid y && validFacing f
  | none, none, none => true
  | _, _, _ => false

example : (Robot.place Robot.init 1 2 "NORTH").2 = true := by decide
example : (Robot.place Robot.init 5 2 "NORTH").2 = false := by decide
example : (Robot.place Robot.init 1 2 "north").2 = false := by decide
example : Robot.move { x := some 0, y := some 0, facing := some "NORTH" }
    = { x := some 0, y := some 1, facing := some "NORTH" } := by decide
example : Robot.left { x := some 0, y := some 0, facing := some "NORTH" }
    = some { x := some 0, y := some 0, facing := some "WEST" } := by decide
example : CLI.left Robot.init = none := by decide
example : CLI.report { x := some 0, y := some 1, facing := some "NORTH" }
    = "0, 1, NORTH" := by decide
example : Robot.report { x := some 0, y := some 1, facing := some "NORTH" }
    = some "0,1,NORTH" := by decide
example : svcExecute Robot.init "jump" = SvcResult.unknown Robot.init "Unknown command: JUMP" := by
  decide
example : routeExecute Robot.init ApiCommand.MOVE = RouteResult.notPlacedError := by decide
example : goodRobot (runCmds [Cmd.place 1 2 "EAST", Cmd.move, Cmd.left]) = true := by decide

/-! ## Helper lemmas -/

theorem validFacing_cases (f : String) :
    validFacing f = true ↔ f = "NORTH" ∨ f = "SOUTH" ∨ f = "EAST" ∨ f = "WEST" := by
  simp [validFacing, or_assoc]

/-! ## C2: the place contract -/

/-- Claim C2: for every state and placement attempt, `place` returns false and
leaves the state untouched when `x` or `y` is outside `[0,4]` or the facing
string is invalid, and returns true setting all three fields otherwise; the
CLI `place` behaves identically. -/
theorem place_contract (r : Robot) (x y : Int) (f : String) :
    ((Robot.place r x y f).2 = false ↔
      ¬(0 ≤ x ∧ x ≤ 4 ∧ 0 ≤ y ∧ y ≤ 4 ∧ validFacing f = true)) ∧
    (¬(0 ≤ x ∧ x ≤ 4 ∧ 0 ≤ y ∧ y ≤ 4 ∧ validFacing f = true) →
      Robot.place r x y f = (r, false)) ∧
    ((0 ≤ x ∧ x ≤ 4 ∧ 0 ≤ y ∧ y ≤ 4 ∧ validFacing f = true) →
      Robot.place r x y f = ({ x := some x, y := some y, facing := some f }, true)) ∧
    CLI.place r x y f = Robot.place r x y f := by
  unfold Robot.place CLI.place
  by_cases h : 0 ≤ x ∧ x ≤ 4 ∧ 0 ≤ y ∧ y ≤ 4 ∧ validFacing f = true <;> simp [h]

/-- Witness for C2: out-of-bounds x leaves the state unchanged; a valid
placement sets all three fields. -/
theorem place_contract_witness :
    Robot.place Robot.init 5 0 "NORTH" = (Robot.init, false) ∧
    Robot.place Robot.init 1 2 "EAST" =
      ({ x := some 1, y := some 2, facing := some "EAST" }, true) :=
  ⟨(place_contract Robot.init 5 0 "NORTH").2.1 (by decide),
   (place_contract Robot.init 1 2 "EAST").2.2.1 (by decide)⟩

/-! ## C10: facing validation is case-sensitive -/

/-- Claim C10: facing validation in `place` is case-sensitive — any facing
string other than the exact uppercase four makes `place` fail and leave the
state unchanged (in both implementations), even though command dispatch
uppercases its input, so dispatch is case-insensitive. -/
theorem facing_case_sensitive (r : Robot) (x y : Int) (f : String)
    (hf : validFacing f = false) :
    Robot.place r x y f = (r, false) ∧
    CLI.place r x y f = (r, false) ∧
    validFacing "north" = false ∧
    svcExecute r "move" = svcExecute r "MOVE" := by
  refine ⟨?_, ?_, by decide, rfl⟩ <;>
    simp [Robot.place, CLI.place, hf]

/-- Witness for C10: placing at in-bounds (1,2) with lowercase facing fails
and leaves a fresh robot unchanged. -/
theorem facing_case_sensitive_witness :
    Robot.place Robot.init 1 2 "north" = (Robot.init, false) :=
  (facing_case_sensitive Robot.init 1 2 "north" (by decide)).1

/-! ## C4: the report format (corrected) -/

/-- Counterexample to claim C4 as stated: the CLI `report` at a placed state
inserts a space after each comma, so it is not the claimed `"{x},{y},{F}"`
format. -/
theorem report_format_counterexample :
    CLI.report { x := some 0, y := some 1, facing := some "NORTH" } = "0, 1, NORTH" ∧
    "0, 1, NORTH" ≠ "0,1,NORTH" := by decide

/-- Claim C4 (amended): the backend `report` returns exactly
`"{x},{y},{F}"` with no spaces when placed and `None` when unplaced; the CLI
`report` joins with `", "` (comma and space) when placed and returns the
string `"Not placed"` when `x` or `y` is unset — in no case a numeric
placeholder. -/
theorem report_format_amended (r : Robot) :
    (∀ x y f, r.x = some x → r.y = some y → r.facing = some f →
      Robot.report r = some (toString x ++ "," ++ toString y ++ "," ++ f) ∧
      CLI.report r = toString x ++ ", " ++ toString y ++ ", " ++ f) ∧
    (r.is_placed = false → Robot.report r = none) ∧
    ((r.x = none ∨ r.y = none) → CLI.report r = "Not placed") := by
  obtain ⟨ox, oy, og⟩ := r
  refine ⟨?_, ?_, ?_⟩
  · intro x y f hx hy hf
    cases hx; cases hy; cases hf
    exact ⟨rfl, rfl⟩
  · intro h
    simp [Robot.report, h]
  · intro h
    rcases h with h | h
    · cases h
      cases oy <;> simp [CLI.report]
    · cases h
      cases ox <;> simp [CLI.report]

/-! ## C6: entity operations on an unplaced robot (corrected) -/

/-- Counterexample to claim C6 as stated: the CLI `left` and `right` have no
placed-guard, so on an unplaced robot `directions.index(None)` raises
`ValueError` (modelled as `none`) instead of returning normally. -/
theorem unplaced_rotation_counterexample :
    CLI.left Robot.init = none ∧ CLI.right Robot.init = none := by decide

/-- Claim C6 (amended): on an unplaced robot the backend `move`, `left` and
`right` are guarded no-ops that return normally with the state unchanged, and
the CLI `move` is a no-op as well; but the CLI `left` and `right`, called
directly on an unplaced robot, raise an error instead of returning. -/
theorem unplaced_ops_amended (r : Robot)
    (hx : r.x = none) (hy : r.y = none) (hf : r.facing = none) :
    Robot.move r = r ∧ Robot.left r = some r ∧ Robot.right r = some r ∧
    CLI.move r = some r ∧ CLI.left r = none ∧ CLI.right r = none := by
  obtain ⟨ox, oy, og⟩ := r
  cases hx; cases hy; cases hf
  decide

/-- Witness for C6 (amended), at the freshly created robot. -/
theorem unplaced_ops_amended_witness :
    Robot.move Robot.init = Robot.init ∧
    Robot.left Robot.init = some Robot.init ∧
    Robot.right Robot.init = some Robot.init ∧
    CLI.move Robot.init = some Robot.init ∧
    CLI.left Robot.init = none ∧ CLI.right Robot.init = none :=
  unplaced_ops_amended Robot.init rfl rfl rfl

/-! ## C3: the move contract -/

/-- Claim C3: on every placed in-bounds state, `move` changes only the
coordinate on the axis aligned with `facing`, to the old value plus one
(NORTH/EAST) or minus one (SOUTH/WEST) clamped to `[0,4]`; the other
coordinate and the facing are unchanged, and moving against an edge already
reached changes nothing.  The CLI `move` agrees with the backend `move` on
such states. -/
theorem move_contract (r : Robot) (x y : Int) (f : String)
    (hx : r.x = some x) (hy : r.y = some y) (hf : r.facing = some f)
    (hbx : 0 ≤ x ∧ x ≤ 4) (hby : 0 ≤ y ∧ y ≤ 4) :
    (f = "NORTH" →
      r.move = { x := some x, y := some (max 0 (min (y + 1) 4)), facing := some f }) ∧
    (f = "SOUTH" →
      r.move = { x := some x, y := some (max 0 (min (y - 1) 4)), facing := some f }) ∧
    (f = "EAST" →
      r.move = { x := some (max 0 (min (x + 1) 4)), y := some y, facing := some f }) ∧
    (f = "WEST" →
      r.move = { x := some (max 0 (min (x - 1) 4)), y := some y, facing := some f }) ∧
    (f = "NORTH" → y = 4 → r.move = r) ∧
    (f = "SOUTH" → y = 0 → r.move = r) ∧
    (f = "EAST" → x = 4 → r.move = r) ∧
    (f = "WEST" → x = 0 → r.move = r) ∧
    CLI.move r = some r.move := by
  obtain ⟨ox, oy, og⟩ := r
  cases hx; cases hy; cases hf
  refine ⟨?_, ?_, ?_, ?_, ?_, ?_, ?_, ?_, ?_⟩
  · intro h; cases h
    simp [Robot.move, Robot.is_placed, Robot.mk.injEq]
    omega
  · intro h; cases h
    simp [Robot.move, Robot.is_placed, Robot.mk.injEq]
    omega
  · intro h; cases h
    simp [Robot.move, Robot.is_placed, Robot.mk.injEq]
    omega
  · intro h; cases h
    simp [Robot.move, Robot.is_placed, Robot.mk.injEq]
    omega
  · intro h hy4; cases h; cases hy4
    simp [Robot.move, Robot.is_placed]
  · intro h hy0; cases h; cases hy0
    simp [Robot.move, Robot.is_placed]
  · intro h hx4; cases h; cases hx4
    simp [Robot.move, Robot.is_placed]
  · intro h hx0; cases h; cases hx0
    simp [Robot.move, Robot.is_placed]
  · by_cases h1 : f = "NORTH"
    · cases h1; rfl
    · by_cases h2 : f = "SOUTH"
      · cases h2; rfl
      · by_cases h3 : f = "EAST"
        · cases h3; rfl
        · by_cases h4 : f = "WEST"
          · cases h4; rfl
          · simp [Robot.move, CLI.move, Robot.is_placed, h1, h2, h3, h4]

/-- Witness for C3: moving north from (0,4) — already at the north edge —
leaves the state unchanged. -/
theorem move_contract_witness :
    Robot.move { x := some 0, y := some 4, facing := some "NORTH" }
      = { x := some 0, y := some 4, facing := some "NORTH" } :=
  (move_contract { x := some 0, y := some 4, facing := some "NORTH" } 0 4 "NORTH"
    rfl rfl rfl (by decide) (by decide)).2.2.2.2.1 rfl rfl

/-! ## C7: rotation algebra -/

/-- An arbitrary sequence of rotations: `true` for `left`, `false` for
`right`, stopping (with `none`) if any step raises. -/
def rotateSeq (r : Robot) (bs : List Bool) : Option Robot :=
  match bs with
  | [] => some r
  | b :: rest =>
    (if b then Robot.left r else Robot.right r).bind (fun r2 => rotateSeq r2 rest)

theorem left_preserves_pos (r r2 : Robot) (h : Robot.left r = some r2) :
    r2.x = r.x ∧ r2.y = r.y := by
  unfold Robot.left at h
  split at h
  · cases h; exact ⟨rfl, rfl⟩
  · split at h
    · cases h
    · split at h
      · cases h
      · cases h; exact ⟨rfl, rfl⟩

theorem right_preserves_pos (r r2 : Robot) (h : Robot.right r = some r2) :
    r2.x = r.x ∧ r2.y = r.y := by
  unfold Robot.right at h
  split at h
  · cases h; exact ⟨rfl, rfl⟩
  · split at h
    · cases h
    · split at h
      · cases h
      · cases h; exact ⟨rfl, rfl⟩

theorem rotateSeq_preserves_pos (bs : List Bool) (r r2 : Robot)
    (h : rotateSeq r bs = some r2) : r2.x = r.x ∧ r2.y = r.y := by
  induction bs generalizing r with
  | nil =>
    cases h
    exact ⟨rfl, rfl⟩
  | cons b rest ih =>
    unfold rotateSeq at h
    rcases hstep : if b then Robot.left r else Robot.right r with _ | rmid
    · rw [hstep] at h
      cases h
    · rw [hstep] at h
      have hmid : rmid.x = r.x ∧ rmid.y = r.y := by
        cases b with
        | true => exact left_preserves_pos r rmid (by simpa using hstep)
        | false => exact right_preserves_pos r rmid (by simpa using hstep)
      have htail := ih rmid (by simpa using h)
      exact ⟨htail.1.trans hmid.1, htail.2.trans hmid.2⟩

/-- Claim C7: from any placed state with a valid facing, four `left`s or four
`right`s restore the facing (indeed the whole state), `left` then `right` and
`right` then `left` are the identity, and no sequence of rotations ever
changes the coordinates. -/
theorem rotation_algebra (r : Robot) (x y : Int) (f : String)
    (hx : r.x = some x) (hy : r.y = some y) (hf : r.facing = some f)
    (hvf : validFacing f = true) :
    ((((Robot.left r).bind Robot.left).bind Robot.left).bind Robot.left = some r) ∧
    ((((Robot.right r).bind Robot.right).bind Robot.right).bind Robot.right = some r) ∧
    ((Robot.left r).bind Robot.right = some r) ∧
    ((Robot.right r).bind Robot.left = some r) ∧
    (∀ (bs : List Bool) (r2 : Robot), rotateSeq r bs = some r2 →
      r2.x = some x ∧ r2.y = some y) := by
  obtain ⟨ox, oy, og⟩ := r
  cases hx; cases hy; cases hf
  have hpos : ∀ (bs : List Bool) (r2 : Robot),
      rotateSeq { x := some x, y := some y, facing := some f } bs = some r2 →
      r2.x = some x ∧ r2.y = some y := by
    intro bs r2 h
    have := rotateSeq_preserves_pos bs _ r2 h
    exact ⟨this.1, this.2⟩
  rcases (validFacing_cases f).mp hvf with h | h | h | h <;> cases h <;>
    exact ⟨rfl, rfl, rfl, rfl, hpos⟩

/-- Witness for C7: four lefts from (2,3,EAST) restore the state, and the
rotation sequence left-left-right leaves the coordinates at (2,3). -/
theorem rotation_algebra_witness :
    ((((Robot.left { x := some 2, y := some 3, facing := some "EAST" }).bind
        Robot.left).bind Robot.left).bind Robot.left
      = some { x := some 2, y := some 3, facing := some "EAST" }) ∧
    (∀ r2 : Robot,
      rotateSeq { x := some 2, y := some 3, facing := some "EAST" } [true, true, false]
        = some r2 → r2.x = some 2 ∧ r2.y = some 3) :=
  ⟨(rotation_algebra { x := some 2, y := some 3, facing := some "EAST" } 2 3 "EAST"
      rfl rfl rfl (by decide)).1,
   fun r2 h => (rotation_algebra { x := some 2, y := some 3, facing := some "EAST" }
      2 3 "EAST" rfl rfl rfl (by decide)).2.2.2.2 [true, true, false] r2 h⟩

/-! ## C5: the processor gate for commands on an unplaced robot -/

/-- Claim C5: for an unplaced robot, the `/robot/command` handler rejects
`MOVE`, `LEFT` and `RIGHT` with the not-placed error before any entity call,
while `REPORT` succeeds, returning the unplaced signal (`None`); `REPORT` is
accepted in every placement state. -/
theorem command_gate_not_placed (r : Robot) (h : r.is_placed = false) :
    routeExecute r ApiCommand.MOVE = RouteResult.notPlacedError ∧
    routeExecute r ApiCommand.LEFT = RouteResult.notPlacedError ∧
    routeExecute r ApiCommand.RIGHT = RouteResult.notPlacedError ∧
    routeExecute r ApiCommand.REPORT = RouteResult.ok r none ∧
    ∀ r2 : Robot, routeExecute r2 ApiCommand.REPORT = RouteResult.ok r2 (Robot.report r2) := by
  have hgate : ∀ c : ApiCommand, c ≠ ApiCommand.REPORT →
      routeExecute r c = RouteResult.notPlacedError := by
    intro c hc
    unfold routeExecute
    rw [if_pos ⟨hc, h⟩]
  have hnone : Robot.report r = none := by simp [Robot.report, h]
  exact ⟨hgate _ (by decide), hgate _ (by decide), hgate _ (by decide),
    by rw [show routeExecute r ApiCommand.REPORT = RouteResult.ok r r.report from rfl, hnone],
    fun r2 => rfl⟩

/-- Witness for C5, at the freshly created robot. -/
theorem command_gate_not_placed_witness :
    routeExecute Robot.init ApiCommand.MOVE = RouteResult.notPlacedError ∧
    routeExecute Robot.init ApiCommand.LEFT = RouteResult.notPlacedError ∧
    routeExecute Robot.init ApiCommand.RIGHT = RouteResult.notPlacedError ∧
    routeExecute Robot.init ApiCommand.REPORT = RouteResult.ok Robot.init none ∧
    ∀ r2 : Robot,
      routeExecute r2 ApiCommand.REPORT = RouteResult.ok r2 (Robot.report r2) :=
  command_gate_not_placed Robot.init rfl

/-! ## C8: unknown command handling (corrected) -/

/-- Counterexample to claim C8 as stated: the service uppercases before
raising, so for the input `"jump"` the error message is
`"Unknown command: JUMP"`, which does not carry the offending string
`"jump"` itself. -/
theorem unknown_command_counterexample :
    svcExecute Robot.init "jump" = SvcResult.unknown Robot.init "Unknown command: JUMP" ∧
    ¬ List.IsInfix "jump".data "Unknown command: JUMP".data := by decide

/-- Claim C8 (amended): the service matches the command name
case-insensitively against the four known names (its result depends only on
the uppercased input); any other string raises the unknown-command error with
the robot untouched, and the error message carries the uppercased form of the
offending string. -/
theorem unknown_command_amended (r : Robot) (command : String)
    (h1 : pyUpper command ≠ "MOVE") (h2 : pyUpper command ≠ "LEFT")
    (h3 : pyUpper command ≠ "RIGHT") (h4 : pyUpper command ≠ "REPORT") :
    svcExecute r command = SvcResult.unknown r ("Unknown command: " ++ pyUpper command) ∧
    List.IsInfix (pyUpper command).data ("Unknown command: " ++ pyUpper command).data ∧
    ∀ s, pyUpper s = pyUpper command → svcExecute r s = svcExecute r command := by
  refine ⟨?_, ?_, ?_⟩
  · unfold svcExecute
    simp [h1, h2, h3, h4]
  · rw [String.data_append]
    have hin := List.infix_append ("Unknown command: ").data (pyUpper command).data []
    simpa using hin
  · intro s hs
    unfold svcExecute
    rw [hs]

/-- Witness for C8 (amended), at the input string `"jump"`. -/
theorem unknown_command_amended_witness :
    svcExecute Robot.init "jump"
      = SvcResult.unknown Robot.init ("Unknown command: " ++ pyUpper "jump") :=
  (unknown_command_amended Robot.init "jump"
    (by decide) (by decide) (by decide) (by decide)).1

/-! ## C9: reset -/

/-- Claim C9: after `RobotService.reset` the robot equals the freshly created
robot (all three fields unset), the command route rejects `MOVE`/`LEFT`/
`RIGHT` with the not-placed error, and `place` behaves exactly as on a fresh
robot. -/
theorem reset_contract (r : Robot) :
    serviceReset r = Robot.init ∧
    routeExecute (serviceReset r) ApiCommand.MOVE = RouteResult.notPlacedError ∧
    routeExecute (serviceReset r) ApiCommand.LEFT = RouteResult.notPlacedError ∧
    routeExecute (serviceReset r) ApiCommand.RIGHT = RouteResult.notPlacedError ∧
    ∀ x y f, Robot.place (serviceReset r) x y f = Robot.place Robot.init x y f := by
  have h : serviceReset r = Robot.init := rfl
  rw [h]
  exact ⟨rfl, by decide, by decide, by decide, fun x y f => rfl⟩

/-! ## C1: the reachable-state invariant -/

theorem goodRobot_step (r : Robot) (c : Cmd) (h : goodRobot r = true) :
    goodRobot (stepCmd r c) = true := by
  obtain ⟨ox, oy, og⟩ := r
  cases c with
  | place x y f =>
    by_cases hc : 0 ≤ x ∧ x ≤ 4 ∧ 0 ≤ y ∧ y ≤ 4 ∧ validFacing f = true
    · simp only [stepCmd, Robot.place, if_pos hc]
      obtain ⟨h1, h2, h3, h4, h5⟩ := hc
      simp [goodRobot, inGrid, h1, h2, h3, h4, h5]
    · simpa [stepCmd, Robot.place, if_neg hc] using h
  | move =>
    cases ox with
    | none =>
      cases oy with
      | none =>
        cases og with
        | none => simpa [stepCmd, Robot.move, Robot.is_placed] using h
        | some f => simp [goodRobot] at h
      | some y => simp [goodRobot] at h
    | some x =>
      cases oy with
      | none => simp [goodRobot] at h
      | some y =>
        cases og with
        | none => simp [goodRobot] at h
        | some f =>
          simp only [goodRobot, inGrid, Bool.and_eq_true, decide_eq_true_eq] at h
          obtain ⟨⟨⟨hx1, hx2⟩, hy1, hy2⟩, hf⟩ := h
          rcases (validFacing_cases f).mp hf with hv | hv | hv | hv <;> cases hv <;>
            simp [stepCmd, Robot.move, Robot.is_placed, goodRobot, inGrid, validFacing] <;>
            omega
  | left =>
    cases ox with
    | none =>
      cases oy with
      | none =>
        cases og with
        | none => simpa [stepCmd, Robot.left, Robot.is_placed] using h
        | some f => simp [goodRobot] at h
      | some y => simp [goodRobot] at h
    | some x =>
      cases oy with
      | none => simp [goodRobot] at h
      | some y =>
        cases og with
        | none => simp [goodRobot] at h
        | some f =>
          simp only [goodRobot, inGrid, Bool.and_eq_true, decide_eq_true_eq] at h
          obtain ⟨⟨⟨hx1, hx2⟩, hy1, hy2⟩, hf⟩ := h
          rcases (validFacing_cases f).mp hf with hv | hv | hv | hv <;> cases hv <;>
            simp [stepCmd, Robot.left, Robot.is_placed, dirIndex, dirAt, goodRobot,
              inGrid, validFacing] <;>
            omega
  | right =>
    cases ox with
    | none =>
      cases oy with
      | none =>
        cases og with
        | none => simpa [stepCmd, Robot.right, Robot.is_placed] using h
        | some f => simp [goodRobot] at h
      | some y => simp [goodRobot] at h
    | some x =>
      cases oy with
      | none => simp [goodRobot] at h
      | some y =>
        cases og with
        | none => simp [goodRobot] at h
        | some f =>
          simp only [goodRobot, inGrid, Bool.and_eq_true, decide_eq_true_eq] at h
          obtain ⟨⟨⟨hx1, hx2⟩, hy1, hy2⟩, hf⟩ := h
          rcases (validFacing_cases f).mp hf with hv | hv | hv | hv <;> cases hv <;>
            simp [stepCmd, Robot.right, Robot.is_placed, dirIndex, dirAt, goodRobot,
              inGrid, validFacing] <;>
            omega
  | report => simpa [stepCmd] using h
  | reset => simp [stepCmd, serviceReset, goodRobot]

theorem goodRobot_foldl (cs : List Cmd) (r : Robot) (h : goodRobot r = true) :
    goodRobot (cs.foldl stepCmd r) = true := by
  induction cs generalizing r with
  | nil => simpa using h
  | cons c rest ih => exact ih _ (goodRobot_step r c h)

/-- Claim C1: every state reachable from a fresh robot by any sequence of
place/move/left/right/report/reset commands has its three fields all set or
all unset, and whenever they are set the coordinates are within `[0,4]` and
the facing is one of the four cardinal directions. -/
theorem robot_reachable_invariant (cs : List Cmd) :
    ((runCmds cs).x.isSome = (runCmds cs).y.isSome ∧
     (runCmds cs).y.isSome = (runCmds cs).facing.isSome) ∧
    ∀ x y f, (runCmds cs).x = some x → (runCmds cs).y = some y →
      (runCmds cs).facing = some f →
      (0 ≤ x ∧ x ≤ 4) ∧ (0 ≤ y ∧ y ≤ 4) ∧
        (f = "NORTH" ∨ f = "SOUTH" ∨ f = "EAST" ∨ f = "WEST") := by
  have hg : goodRobot (runCmds cs) = true :=
    goodRobot_foldl cs Robot.init (by decide)
  revert hg
  generalize runCmds cs = R
  obtain ⟨ox, oy, og⟩ := R
  intro hg
  cases ox with
  | none =>
    cases oy with
    | none =>
      cases og with
      | none => exact ⟨⟨rfl, rfl⟩, fun x y f hx => nomatch hx⟩
      | some f => simp [goodRobot] at hg
    | some y => simp [goodRobot] at hg
  | some x =>
    cases oy with
    | none => simp [goodRobot] at hg
    | some y =>
      cases og with
      | none => simp [goodRobot] at hg
      | some f =>
        simp only [goodRobot, inGrid, Bool.and_eq_true, decide_eq_true_eq] at hg
        obtain ⟨⟨⟨hx1, hx2⟩, hy1, hy2⟩, hf⟩ := hg
        refine ⟨⟨rfl, rfl⟩, ?_⟩
        intro a b g ha hb hgf
        cases ha; cases hb; cases hgf
        exact ⟨⟨hx1, hx2⟩, ⟨hy1, hy2⟩, (validFacing_cases _).mp hf⟩

/-- Witness for C1: after `PLACE 3,2,NORTH` then `MOVE`, the reached state
(3,3,NORTH) satisfies the bounds and the facing is a cardinal direction. -/
theorem robot_reachable_invariant_witness :
    (0 ≤ (3 : Int) ∧ (3 : Int) ≤ 4) ∧ (0 ≤ (3 : Int) ∧ (3 : Int) ≤ 4) ∧
      ("NORTH" = "NORTH" ∨ "NORTH" = "SOUTH" ∨ "NORTH" = "EAST" ∨ "NORTH" = "WEST") :=
  (robot_reachable_invariant [Cmd.place 3 2 "NORTH", Cmd.move]).2 3 3 "NORTH"
    (by decide) (by decide) (by decide)

/-- Witness for C4 (amended), at the placed state (0,1,NORTH) and the fresh
robot. -/
theorem report_format_amended_witness :
    (Robot.report { x := some 0, y := some 1, facing := some "NORTH" }
      = some (toString (0 : Int) ++ "," ++ toString (1 : Int) ++ "," ++ "NORTH") ∧
     CLI.report { x := some 0, y := some 1, facing := some "NORTH" }
      = toString (0 : Int) ++ ", " ++ toString (1 : Int) ++ ", " ++ "NORTH") ∧
    Robot.report Robot.init = none ∧
    CLI.report Robot.init = "Not placed" :=
  ⟨(report_format_amended { x := some 0, y := some 1, facing := some "NORTH" }).1
      0 1 "NORTH" rfl rfl rfl,
   (report_format_amended Robot.init).2.1 rfl,
   (report_format_amended Robot.init).2.2 (Or.inl rfl)⟩
